import Mathlib

/-!
Verification of the Braid LLVM code-generation backend
(`src/backends/llvm.ts`, given as `src/unnamed/part_000`, with the shared
type definitions from `src/type.ts`).

The backend is shallowly embedded: Braid source types and the LLVM type
algebra are inductive types, the LLVM `IRBuilder`/module state is an
explicit record threaded through an exception+state monad, and each
emission function of the source is translated clause-by-clause.
-/

namespace Braid

/-- Braid source types, from `src/type.ts`: `PrimitiveType("Int")`,
`PrimitiveType("Float")`, `FunType(params, ret)`, `CodeType(inner)`,
`AnyType`, `VoidType`, `ParameterizedType(name)`, `InstanceType(cons, arg)`.
The two primitive singletons `INT` and `FLOAT` are the constructors
`int` and `float`; `inst` keeps only the constructor's name, which is all
the backend can observe of an `InstanceType`. -/
inductive Ty where
  | int : Ty
  | float : Ty
  | fn (params : List Ty) (ret : Ty) : Ty
  | code (inner : Ty) : Ty
  | any : Ty
  | void : Ty
  | param (name : String) : Ty
  | inst (cons : String) (arg : Ty) : Ty

/-- LLVM types as the backend uses them (`llvmc` wrappers): `IntType.int32`,
`FloatType.double`, `IntType.int8`, `VoidType`, `PointerType.create(t, 0)`,
`FunctionType.create(ret, args)`, `StructType.create(fields, packed)`. -/
inductive LTy where
  | int32 : LTy
  | double : LTy
  | int8 : LTy
  | voidT : LTy
  | ptr (t : LTy) : LTy
  | fnT (ret : LTy) (args : List LTy) : LTy
  | structT (packed : Bool) (fields : List LTy) : LTy

mutual

/-- Source `llvm_type` (part_000 lines 445-481).  Maps a Braid type to its LLVM
lowering.  `INT ↦ i32`, `FLOAT ↦ double`; a `FunType` lowers to the packed
closure struct `{ (lower(params…), i8*) → lower(ret) *, i8* }` (the source
first lowers every parameter, appends the `i8*` environment pointer, then
lowers the return type); a `CodeType` lowers to the packed struct
`{ (i8*) → lower(inner) *, i8* }`.  Every other type throws
"Unsupported type in LLVM backend" (the source appends the offending
type's string rendering, which we drop). -/
def llvm_type : Ty → Except String LTy
  | .int => .ok .int32
  | .float => .ok .double
  | .fn params ret => do
      let arg_types ← llvm_type_list params
      let ret_type ← llvm_type ret
      .ok (.structT true [.ptr (.fnT ret_type (arg_types ++ [.ptr .int8])), .ptr .int8])
  | .code inner => do
      let ret_type ← llvm_type inner
      .ok (.structT true [.ptr (.fnT ret_type [.ptr .int8]), .ptr .int8])
  | .any => .error "Unsupported type in LLVM backend"
  | .void => .error "Unsupported type in LLVM backend"
  | .param _ => .error "Unsupported type in LLVM backend"
  | .inst _ _ => .error "Unsupported type in LLVM backend"

/-- The `for (let arg of type.params)` loop inside `llvm_type`, lowering a
list of parameter types left to right and stopping at the first failure. -/
def llvm_type_list : List Ty → Except String (List LTy)
  | [] => .ok []
  | t :: ts => do
      let l ← llvm_type t
      let ls ← llvm_type_list ts
      .ok (l :: ls)

end

/-- Source `type === INT` in the source: `INT` is a singleton object, so the
identity test is exactly a test for the `int` constructor. -/
def Ty.isInt : Ty → Bool
  | .int => true
  | _ => false

/-- Source `type === FLOAT` in the source. -/
def Ty.isFloat : Ty → Bool
  | .float => true
  | _ => false

/-- Source `ret_type != void_t` in `emit_runtime_declaration`: `void_t` is the one
`VoidType` value the backend ever creates, so the reference comparison is
a test for the `voidT` constructor. -/
def LTy.isVoidT : LTy → Bool
  | .voidT => true
  | _ => false

/-- LLVM values as the backend handles them.  `reg n` is the `n`-th value
produced by a builder instruction, `paramV f i` is `func.getParam(i)` of
function `f`, `undef ty` is `llvm.Value.getUndef(ty)`, and `funcref f` is
the `llvm.Function` object named `f` used as a callee. -/
inductive Val where
  | reg (n : Nat) : Val
  | paramV (fn : String) (i : Nat) : Val
  | undef (ty : LTy) : Val
  | funcref (fn : String) : Val

/-- The builder instructions the backend emits.  Each constructor mirrors
one `llvmc` builder call; the value an instruction produces is `Val.reg`
of the running counter at emission time. -/
inductive Instr where
  | alloca (ty : LTy) (nm : String) : Instr
  | store (v : Val) (ptrv : Val) : Instr
  | load (ptrv : Val) : Instr
  | insertvalue (agg : Val) (v : Val) (idx : Nat) : Instr
  | bitcast (v : Val) (ty : LTy) : Instr
  | structGEP (v : Val) (idx : Nat) : Instr
  | add (a b : Val) : Instr
  | mul (a b : Val) : Instr
  | fadd (a b : Val) : Instr
  | fmul (a b : Val) : Instr
  | sitofp (v : Val) (ty : LTy) : Instr
  | neg (v : Val) : Instr
  | fneg (v : Val) : Instr
  | call (fn : Val) (args : List Val) : Instr
  | ret (v : Val) : Instr
  | retVoid : Instr

/-- An LLVM function in the module: its symbol name, return type and
parameter types (`llvm.FunctionType.create(ret, params)`). -/
structure Func where
  name : String
  ret : LTy
  params : List LTy

/-- The mutable emitter state (`LLVMEmitter` minus the read-only `ir` and
`variant` fields, which we pass separately): the current builder (as an
identity token, so that "same object" is expressible), a counter for
fresh builders, the `named_values` map (a JS sparse array of allocas,
modelled as an association list where a write prepends), a counter for
fresh instruction results, the instruction trace of all builder calls in
emission order, and the functions added to the module. -/
structure St where
  builder : Nat
  next_builder : Nat
  named_values : List (Nat × Val)
  next_reg : Nat
  instrs : List Instr
  funcs : List Func

/-- Result of running an emission step: either a value in a final state, or
a thrown JS exception (the string) together with the state at the moment
of the throw — mutations made before the throw persist, as they do on the
shared emitter object in the source. -/
inductive ERes (α : Type) where
  | ok (s : St) (a : α) : ERes α
  | err (msg : String) (s : St) : ERes α

/-- Emission computations: state plus JS-style exceptions. -/
def EmitM (α : Type) : Type := St → ERes α

def EmitM.bind {α β : Type} (m : EmitM α) (f : α → EmitM β) : EmitM β := fun s =>
  match m s with
  | .ok s' a => f a s'
  | .err e s' => .err e s'

def EmitM.pure {α : Type} (a : α) : EmitM α := fun s => .ok s a

instance : Monad EmitM where
  pure := EmitM.pure
  bind := EmitM.bind

@[simp]
theorem EmitM.run_bind {α β : Type} (m : EmitM α) (f : α → EmitM β) (s : St) :
    (m >>= f) s = match m s with
      | .ok s' a => f a s'
      | .err e s' => .err e s' := rfl

@[simp]
theorem EmitM.run_pure {α : Type} (a : α) (s : St) :
    (Pure.pure a : EmitM α) s = .ok s a := rfl

/-- Throwing a JS exception: the state at the throw site is preserved. -/
def throwErr {α : Type} (msg : String) : EmitM α := fun s => .err msg s

/-- Run a pure `Except` computation (e.g. `llvm_type`) inside emission; a
thrown error propagates. -/
def liftE {α : Type} : Except String α → EmitM α
  | .ok a => EmitM.pure a
  | .error e => throwErr e

/-- The state after appending one instruction. -/
def pushInstr (s : St) (i : Instr) : St :=
  { s with instrs := s.instrs ++ [i], next_reg := s.next_reg + 1 }

/-- Emit one builder instruction and return the value it defines. -/
def emitInstr (i : Instr) : EmitM Val := fun s =>
  .ok (pushInstr s i) (.reg s.next_reg)

def buildLoad (p : Val) : EmitM Val := emitInstr (.load p)

def buildStore (v p : Val) : EmitM Val := emitInstr (.store v p)

def buildAlloca (ty : LTy) (nm : String) : EmitM Val := emitInstr (.alloca ty nm)

def buildInsertValue (agg v : Val) (idx : Nat) : EmitM Val := emitInstr (.insertvalue agg v idx)

def buildBitCast (v : Val) (ty : LTy) : EmitM Val := emitInstr (.bitcast v ty)

def buildStructGEP (v : Val) (idx : Nat) : EmitM Val := emitInstr (.structGEP v idx)

def buildCall (fn : Val) (args : List Val) : EmitM Val := emitInstr (.call fn args)

def buildRet (v : Val) : EmitM Val := emitInstr (.ret v)

/-- Source `emitter.builder` read. -/
def getBuilder : EmitM Nat := fun s => .ok s s.builder

/-- Source `emitter.builder = b` write. -/
def setBuilder (b : Nat) : EmitM Unit := fun s => .ok { s with builder := b } ()

/-- Source `llvm.Builder.create()`: a fresh builder object, distinct from every
live one; creating it does not change `emitter.builder`. -/
def createBuilder : EmitM Nat := fun s =>
  .ok { s with next_builder := s.next_builder + 1 } s.next_builder

/-- Source `emitter.named_values` read. -/
def getNamedValues : EmitM (List (Nat × Val)) := fun s => .ok s s.named_values

/-- Source `emitter.named_values = nv` write (object replacement). -/
def setNamedValues (nv : List (Nat × Val)) : EmitM Unit :=
  fun s => .ok { s with named_values := nv } ()

/-- Source `named_values[id]` read on the JS sparse array: the most recent write
to that index, if any. -/
def lookupNV (nv : List (Nat × Val)) (id : Nat) : Option Val :=
  match nv with
  | [] => none
  | (k, v) :: rest => if k = id then some v else lookupNV rest id

/-- Source `emitter.named_values[id] = v` write. -/
def setNV (id : Nat) (v : Val) : EmitM Unit := fun s =>
  .ok { s with named_values := (id, v) :: s.named_values } ()

/-- Source `emitter.named_values[id]` in a context that dereferences the result
(`pack_env` loads through it with no `undefined` check; a missing entry
crashes the native builder, modelled as a thrown error). -/
def getNV (id : Nat) : EmitM Val := fun s =>
  match lookupNV s.named_values id with
  | some v => .ok s v
  | none => .err "missing named value" s

/-- Source `mod.addFunction(name, type)` (also used for `getOrInsertFunction`,
which behaves identically while the name is not yet present). -/
def addFunction (f : Func) : EmitM Unit := fun s =>
  .ok { s with funcs := s.funcs ++ [f] } ()

/-- Projection: the error message of a failed emission. -/
def ERes.errMsg {α : Type} : ERes α → Option String
  | .ok _ _ => none
  | .err m _ => some m

/-- Projection: the final state, whether the emission succeeded or threw. -/
def ERes.stateOf {α : Type} : ERes α → St
  | .ok s _ => s
  | .err _ s => s

/-- Projection: did the emission complete without throwing? -/
def ERes.isOk {α : Type} : ERes α → Bool
  | .ok _ _ => true
  | .err _ _ => false

/-- Projection: the produced value of a successful emission. -/
def ERes.valueOf {α : Type} (d : α) : ERes α → α
  | .ok _ a => a
  | .err _ _ => d

/-- A `Proc` from `src/compile/ir`: a source function scope.  `id` is
`null` exactly for the entry Proc; `body_id` is the AST id of `body`
(used as the `type_table` key for the return type); `params`, `free`,
`bound`, `persist` and `children` are the id lists described in the IR. -/
structure ProcS where
  id : Option Nat
  body_id : Nat
  params : List Nat
  free : List Nat
  bound : List Nat
  persist : List Nat
  children : List Nat

/-- A `Prog` (quoted program scope).  `owned_persist` holds the ids of the
owned persists (the source stores records and reads `param.id`; only the
id is ever used by this backend). -/
structure ProgS where
  id : Nat
  body_id : Nat
  free : List Nat
  bound : List Nat
  persist : List Nat
  owned_persist : List Nat
  children : List Nat

/-- A specialization overlay (`Variant`): replacement Proc/Prog tables. -/
structure VariantS where
  procs : Nat → Option ProcS
  progs : Nat → Option ProgS

/-- The read-only `CompilerIR` input: Proc/Prog tables, the entry Proc,
the node-id-to-type table (`type_table[id][0]`; the second component is
never read by this backend and is dropped), the use-to-definition map and
the extern-name table. -/
structure CompilerIR where
  procs : Nat → Option ProcS
  progs : Nat → Option ProgS
  main : ProcS
  type_table : Nat → Option Ty
  defuse : Nat → Option Nat
  externs : Nat → Option String

/-- Modelled from the spec: `procsym` from `emitutil` (not under `src/`);
§6.4 fixes the symbol name of Proc `N` as `procN`. -/
def procsym (n : Nat) : String := "proc" ++ toString n

/-- Modelled from the spec: `progsym` from `emitutil` (not under `src/`);
§6.4 fixes the symbol name of Prog `N` as `progN`. -/
def progsym (n : Nat) : String := "prog" ++ toString n

/-- Modelled from the spec: `varsym` from `emitutil` (not under `src/`);
§6.4 only says alloca names echo the variable, so we render the id.  No
claim depends on the exact rendering, only on which id is rendered. -/
def varsym (n : Nat) : String := "v" ++ toString n

/-- Source `emitter.ir.type_table[id][0]` — indexing a missing entry crashes in
the source (property access on `undefined`), modelled as a thrown error. -/
def lookup_ty (tt : Nat → Option Ty) (id : Nat) : Except String Ty :=
  match tt id with
  | some t => .ok t
  | none => .error "type_table has no entry for node"

/-- Source `llvm_type(emitter.ir.type_table[id][0])`, the idiom used throughout. -/
def lookup_llvm_type (ir : CompilerIR) (id : Nat) : Except String LTy := do
  let t ← lookup_ty ir.type_table id
  llvm_type t

/-- A loop lowering each id of a list through the type table, as in
`get_func_type`'s and `get_env_type`'s `for` loops. -/
def lower_ids (ir : CompilerIR) : List Nat → Except String (List LTy)
  | [] => .ok []
  | id :: ids => do
      let t ← lookup_llvm_type ir id
      let ts ← lower_ids ir ids
      .ok (t :: ts)

/-- Source `get_func_type` (lines 486-495): the return type is the lowering of
the body node's type; the argument types are the lowerings of the
`arg_ids` types with one trailing `i8*` (the closure environment). -/
def get_func_type (ir : CompilerIR) (ret_id : Nat) (arg_ids : List Nat) :
    Except String (LTy × List LTy) := do
  let ret_type ← lookup_llvm_type ir ret_id
  let arg_types ← lower_ids ir arg_ids
  .ok (ret_type, arg_types ++ [.ptr .int8])

/-- Source `get_env_type` (lines 97-104): the packed struct of the lowered types
of `scope.free` — and of `scope.free` only. -/
def get_env_type (ir : CompilerIR) (scope_free : List Nat) : Except String LTy := do
  let free_types ← lower_ids ir scope_free
  .ok (.structT true free_types)

/-- The `for (let id of scope.free)` load loop at the top of `pack_env`:
load the current alloca of each free variable, in `scope.free` order. -/
def load_free_vals : List Nat → EmitM (List Val)
  | [] => EmitM.pure []
  | id :: ids => do
      let p ← getNV id
      let v ← buildLoad p
      let vs ← load_free_vals ids
      EmitM.pure (v :: vs)

/-- The `for (let i = 0; i < scope.free.length; i++)` insert loop of
`pack_env`: insert each loaded value at its index into the struct. -/
def insert_env_vals (acc : Val) : List Val → Nat → EmitM Val
  | [], _ => EmitM.pure acc
  | v :: vs, i => do
      let acc' ← buildInsertValue acc v i
      insert_env_vals acc' vs (i + 1)

/-- Source `pack_env` (lines 110-133): loads the free variables of the scope,
builds the environment struct of type `get_env_type(scope)` by indexed
inserts, allocates it on the stack as `envptr`, stores the struct, and
returns the pointer bitcast to `i8*`. -/
def pack_env (ir : CompilerIR) (scope_free : List Nat) : EmitM Val := do
  let free_vals ← load_free_vals scope_free
  let env_type ← liftE (get_env_type ir scope_free)
  let env_struct ← insert_env_vals (.undef env_type) free_vals 0
  let env_struct_ptr ← buildAlloca env_type "envptr"
  let _ ← buildStore env_struct env_struct_ptr
  buildBitCast env_struct_ptr (.ptr .int8)

/-- Source `assignment_helper` (lines 566-575): if `named_values` has no alloca
for `id`, throw "Unknown variable name (assign helper)" before touching
anything; otherwise store `val` through the alloca and return `val`. -/
def assignment_helper (val : Val) (id : Nat) : EmitM Val := do
  let nv ← getNamedValues
  match lookupNV nv id with
  | none => throwErr "Unknown variable name (assign helper)"
  | some ptr => do
      let _ ← buildStore val ptr
      EmitM.pure val

/-- Source `emit_let` (lines 57-59): emit the right-hand side, then assign it to
the let node's own id (which is the definition id of the binding).
`emitE` is the recursive expression compiler `emit`, reached through the
emitter's `emit_expr` field and keyed here by node id. -/
def emit_let (emitE : Nat → EmitM Val) (expr_id : Nat) (tree_id : Nat) : EmitM Val := do
  let v ← emitE expr_id
  assignment_helper v tree_id

/-- Source `emit_assign` (lines 61-73): resolve the use to its definition id; an
extern target throws "not implemented yet" before emitting the right-hand
side; otherwise emit the right-hand side and assign to the definition id.
A `defuse` miss gives `defid = undefined` in the source, and
`externs[undefined]` is `undefined`, so control takes the ordinary branch
and `assignment_helper` throws its unknown-variable error (no
`named_values` index is ever `undefined`); the `none` arm below is that
observable behaviour. -/
def emit_assign (ir : CompilerIR) (emitE : Nat → EmitM Val)
    (tree_id : Nat) (expr_id : Nat) : EmitM Val :=
  match ir.defuse tree_id with
  | some defid =>
    match ir.externs defid with
    | some _ => throwErr "not implemented yet"
    | none => do
        let v ← emitE expr_id
        assignment_helper v defid
  | none => do
      let _ ← emitE expr_id
      throwErr "Unknown variable name (assign helper)"

/-- Source `visit_unary` (lines 635-652): emit the operand, look up its type; on
`Int` only `-` is known and emits integer negation, on `Float` only `-`
is known and emits floating negation, each unknown operator on a numeric
operand throws "Unknown unary op", and any non-numeric operand type
throws "Incompatible Operand". -/
def visit_unary (ir : CompilerIR) (emitE : Nat → EmitM Val)
    (expr_id : Nat) (op : String) : EmitM Val := do
  let val ← emitE expr_id
  let t ← liftE (lookup_ty ir.type_table expr_id)
  if t.isInt then
    if op = "-" then emitInstr (.neg val)
    else throwErr "Unknown unary op"
  else if t.isFloat then
    if op = "-" then emitInstr (.fneg val)
    else throwErr "Unknown unary op"
  else
    throwErr "Incompatible Operand"

/-- Source `visit_binary` (lines 654-697): emit both operands, look up both
types.  Two `Int` sides use the integer `add`/`mul` (any other operator
throws "Unknown bin op"); if either side is neither `Int` nor `Float`
throw "Incompatible Operands"; otherwise promote each non-`Float` (hence
`Int`) side to double with one `sitofp` and use `fadd`/`fmul` (again any
other operator throws "Unknown bin op", after the casts were emitted). -/
def visit_binary (ir : CompilerIR) (emitE : Nat → EmitM Val)
    (lhs_id rhs_id : Nat) (op : String) : EmitM Val := do
  let lVal ← emitE lhs_id
  let rVal ← emitE rhs_id
  let lType ← liftE (lookup_ty ir.type_table lhs_id)
  let rType ← liftE (lookup_ty ir.type_table rhs_id)
  if lType.isInt && rType.isInt then
    match op with
    | "+" => emitInstr (.add lVal rVal)
    | "*" => emitInstr (.mul lVal rVal)
    | _ => throwErr "Unknown bin op"
  else if (!lType.isFloat && !lType.isInt) || (!rType.isFloat && !rType.isInt) then
    throwErr "Incompatible Operands"
  else do
    let lVal ← if !lType.isFloat then emitInstr (.sitofp lVal .double) else EmitM.pure lVal
    let rVal ← if !rType.isFloat then emitInstr (.sitofp rVal .double) else EmitM.pure rVal
    match op with
    | "+" => emitInstr (.fadd lVal rVal)
    | "*" => emitInstr (.fmul lVal rVal)
    | _ => throwErr "Unknown bin op"

/-- The `make allocas for args` loop of `emit_fun` (lines 257-266): for
the `i`-th argument id, alloca its type (`_func_type[1][i]`, here paired
by zipping the ids with the argument types, which agree index by index),
store the incoming parameter `i`, and record the alloca. -/
def alloc_args (fname : String) : List (Nat × LTy) → Nat → EmitM Unit
  | [], _ => EmitM.pure ()
  | (id, ty) :: rest, i => do
      let ptr ← buildAlloca ty (varsym id)
      let _ ← buildStore (.paramV fname i) ptr
      setNV id ptr
      alloc_args fname rest (i + 1)

/-- The environment read-back loop of `emit_fun` (lines 281-296): for the
`i`-th free id, alloca its type, GEP field `i` of the environment struct,
load it, store it into the alloca and record the alloca. -/
def unpack_env_fields (env_ptr : Val) : List (Nat × LTy) → Nat → EmitM Unit
  | [], _ => EmitM.pure ()
  | (id, ty) :: rest, i => do
      let ptr ← buildAlloca ty (varsym id)
      let struct_elem_ptr ← buildStructGEP env_ptr i
      let elem ← buildLoad struct_elem_ptr
      let _ ← buildStore elem ptr
      setNV id ptr
      unpack_env_fields env_ptr rest (i + 1)

/-- The `make allocas for local vars` loop of `emit_fun` (lines 299-306). -/
def alloc_locals (ir : CompilerIR) : List Nat → EmitM Unit
  | [] => EmitM.pure ()
  | id :: ids => do
      let ty ← liftE (lookup_llvm_type ir id)
      let ptr ← buildAlloca ty (varsym id)
      setNV id ptr
      alloc_locals ir ids

/-- The middle of `emit_fun` (lines 257-310): emit the argument allocas,
bitcast the trailing `i8*` parameter (parameter `arg_ids.length`) to a
pointer to the packed struct of the lowered `free_ids` types, read the
environment back field by field into allocas in `free_ids` order, alloca
the locals, emit the body and `ret` its value. -/
def emit_fun_scope_body (ir : CompilerIR) (emitE : Nat → EmitM Val) (func : Func)
    (arg_ids free_ids local_ids : List Nat) (body_id : Nat) : EmitM Val := do
  alloc_args func.name (arg_ids.zip func.params) 0
  let free_types ← liftE (lower_ids ir free_ids)
  let env_ptr ← buildBitCast (.paramV func.name arg_ids.length) (.ptr (.structT true free_types))
  unpack_env_fields env_ptr (free_ids.zip free_types) 0
  alloc_locals ir local_ids
  let body_val ← emitE body_id
  buildRet body_val

/-- The body of `emit_fun` after the function object exists (lines
244-315): create a fresh builder for the entry block, save the old
builder and install the new one, save `named_values` and reset it to
empty, run the scope body, then (after `builder.free()`, which has no
observable effect here) restore the saved builder and `named_values`.
The restore is reached only on this normal path — a throw anywhere in
the scope body propagates with the emitter still holding the scope-local
objects. -/
def emit_fun_rest (ir : CompilerIR) (emitE : Nat → EmitM Val) (func : Func)
    (arg_ids free_ids local_ids : List Nat) (body_id : Nat) : EmitM Unit := do
  let new_builder ← createBuilder
  let old_builder ← getBuilder
  setBuilder new_builder
  let old_named_values ← getNamedValues
  setNamedValues []
  let _ ← emit_fun_scope_body ir emitE func arg_ids free_ids local_ids body_id
  setBuilder old_builder
  setNamedValues old_named_values

/-- Source `emit_fun` (lines 237-318): compute the function type from the body
node and the argument ids, add the function to the module, then run
`emit_fun_rest` and return the function. -/
def emit_fun (ir : CompilerIR) (emitE : Nat → EmitM Val) (name : String)
    (arg_ids free_ids local_ids : List Nat) (body_id : Nat) : EmitM Func := do
  let ft ← liftE (get_func_type ir body_id arg_ids)
  addFunction { name := name, ret := ft.1, params := ft.2 }
  emit_fun_rest ir emitE { name := name, ret := ft.1, params := ft.2 }
    arg_ids free_ids local_ids body_id
  EmitM.pure { name := name, ret := ft.1, params := ft.2 }

/-- Source `_bound_vars` (lines 367-373): copies the scope's `bound` list. -/
def _bound_vars (bound : List Nat) : List Nat := bound

/-- Source `_emit_subscopes` (lines 359-363): emit every child scope, in order,
through the emitter's scope compiler (`emitScope` here stands for the
recursive `emit_scope` reached through the emitter's fields). -/
def _emit_subscopes (emitScope : Nat → EmitM Func) : List Nat → EmitM Unit
  | [] => EmitM.pure ()
  | id :: ids => do
      let _ ← emitScope id
      _emit_subscopes emitScope ids

/-- Source `_emit_scope_func` (lines 375-381): children first, then the scope's
own function with the bound ids as locals.  The scope's `children`,
`bound` and `body` fields are passed individually. -/
def _emit_scope_func (ir : CompilerIR) (emitScope : Nat → EmitM Func)
    (emitE : Nat → EmitM Val) (name : String) (arg_ids free_ids : List Nat)
    (scope_bound scope_children : List Nat) (body_id : Nat) : EmitM Func := do
  _emit_subscopes emitScope scope_children
  emit_fun ir emitE name arg_ids free_ids (_bound_vars scope_bound) body_id

/-- Source `emit_proc` (lines 383-407): arguments are the Proc's params, the
environment ids its `free` list; a non-empty `persist` list throws
"Persist not implemented yet" (the loop throws on its first entry); the
function is named `main` when `id` is `null` and `procN` otherwise. -/
def emit_proc (ir : CompilerIR) (emitScope : Nat → EmitM Func)
    (emitE : Nat → EmitM Val) (proc : ProcS) : EmitM Func :=
  let arg_ids := proc.params
  let free_ids := proc.free
  match proc.persist with
  | _ :: _ => throwErr "Persist not implemented yet"
  | [] =>
    let name := match proc.id with
      | none => "main"
      | some n => procsym n
    _emit_scope_func ir emitScope emitE name arg_ids free_ids proc.bound proc.children proc.body_id

/-- Source `emit_prog` (lines 409-432): no argument ids; the environment ids are
the `owned_persist` ids followed by the `free` ids.  The `persist` loop
only does `console.log(p)` — it does not throw and has no effect on the
module, so a non-empty `persist` list does not stop emission. -/
def emit_prog (ir : CompilerIR) (emitScope : Nat → EmitM Func)
    (emitE : Nat → EmitM Val) (prog : ProgS) : EmitM Func :=
  let free_ids := prog.owned_persist ++ prog.free
  let name := progsym prog.id
  _emit_scope_func ir emitScope emitE name [] free_ids prog.bound prog.children prog.body_id

/-- Source `specialized_proc` (lines 323-329): with no active variant the base
table answers; otherwise `variant.procs[procid] || ir.procs[procid]`. -/
def specialized_proc (variant : Option VariantS) (ir : CompilerIR) (procid : Nat) : Option ProcS :=
  match variant with
  | none => ir.procs procid
  | some v =>
    match v.procs procid with
    | some p => some p
    | none => ir.procs procid

/-- Source `specialized_prog` (lines 331-337), same shape over the Prog tables. -/
def specialized_prog (variant : Option VariantS) (ir : CompilerIR) (progid : Nat) : Option ProgS :=
  match variant with
  | none => ir.progs progid
  | some v =>
    match v.progs progid with
    | some p => some p
    | none => ir.progs progid

/-- Source `emit_scope` (lines 342-356): try the (specialized) Proc table, then
the (specialized) Prog table, else throw.  `fproc` and `fprog` stand for
the `emitter.emit_proc` / `emitter.emit_prog` fields the source calls. -/
def emit_scope (variant : Option VariantS) (ir : CompilerIR)
    (fproc : ProcS → EmitM Func) (fprog : ProgS → EmitM Func) (scope : Nat) : EmitM Func :=
  match specialized_proc variant ir scope with
  | some proc => fproc proc
  | none =>
    match specialized_prog variant ir scope with
    | some prog => fprog prog
    | none => throwErr ("scope id " ++ toString scope ++ " not found")

/-- Source `ptr_t` (line 497). -/
def ptr_t : LTy := .ptr .int8

/-- Source `int_t` (line 498). -/
def int_t : LTy := .int32

/-- Source `void_t` (line 499). -/
def void_t : LTy := .voidT

/-- Source `runtime_declarations` (lines 502-514): name, return type, argument
types of each extern runtime function. -/
def runtime_declarations : List (String × LTy × List LTy) :=
  [ ("mesh_indices", int_t, [ptr_t]),
    ("mesh_positions", int_t, [ptr_t]),
    ("mesh_normals", int_t, [ptr_t]),
    ("get_shader", int_t, [ptr_t, ptr_t]),
    ("draw_mesh", void_t, [int_t, int_t]),
    ("print_mesh", void_t, [ptr_t]),
    ("gl_buffer", int_t, [int_t, ptr_t, ptr_t]),
    ("detect_error", void_t, []),
    ("load_obj", ptr_t, [ptr_t, ptr_t]),
    ("create_window", ptr_t, []) ]

/-- One iteration of the `emit_runtime_declaration` loop (lines 517-560):
declare the extern with its real signature (`getOrInsertFunction`; the
prelude runs once per module, so the name is fresh and this adds), add
the `_wrapper` function whose parameters append one trailing `i8*`,
create a local builder (the emitter's builder is never touched), forward
wrapper parameters `0 .. args.length - 1` — every parameter except the
trailing environment — to a call of the declared function, and terminate
with `ret void` when the real return type is `void`, else `ret` of the
call's value. -/
def emit_runtime_decl_one (entry : String × LTy × List LTy) : EmitM Unit := do
  let name := entry.1
  let ret_type := entry.2.1
  let arg_types := entry.2.2
  let dummy_args := arg_types ++ [ptr_t]
  addFunction { name := name, ret := ret_type, params := arg_types }
  addFunction { name := name ++ "_wrapper", ret := ret_type, params := dummy_args }
  let _ ← createBuilder
  let pass_on_args := (List.range (dummy_args.length - 1)).map (Val.paramV (name ++ "_wrapper"))
  let callv ← buildCall (.funcref name) pass_on_args
  if ret_type.isVoidT then do
    let _ ← emitInstr .retVoid
    EmitM.pure ()
  else do
    let _ ← buildRet callv
    EmitM.pure ()

/-- Source `emit_runtime_declaration` (lines 516-561): the loop over the table. -/
def emit_runtime_declaration : List (String × LTy × List LTy) → EmitM Unit
  | [] => EmitM.pure ()
  | e :: es => do
      emit_runtime_decl_one e
      emit_runtime_declaration es

/-- Modelled from the spec's words, for the refinement claim C7: the first
defined entry of `variant.procs[id]`, `ir.procs[id]`, `variant.progs[id]`,
`ir.progs[id]`, in that order, an absent variant contributing nothing. -/
def resolve_scope_spec (variant : Option VariantS) (ir : CompilerIR) (id : Nat) :
    Option (ProcS ⊕ ProgS) :=
  match (match variant with | some v => v.procs id | none => none) with
  | some p => some (.inl p)
  | none =>
    match ir.procs id with
    | some p => some (.inl p)
    | none =>
      match (match variant with | some v => v.progs id | none => none) with
      | some q => some (.inr q)
      | none =>
        match ir.progs id with
        | some q => some (.inr q)
        | none => none

/-- A fresh emitter state, as the driver `codegen` sets it up: one live
builder, empty `named_values`, nothing emitted yet. -/
def st0 : St := ⟨0, 1, [], 0, [], []⟩

/-- A minimal entry Proc for concrete runs. -/
def proc0 : ProcS := ⟨none, 0, [], [], [], [], []⟩

/-- A concrete IR whose type table maps every node to `Int` and that has
no scopes, no externs and no def-use edges beyond the identity cases
needed in witnesses. -/
def irInt : CompilerIR :=
  { procs := fun _ => none
    progs := fun _ => none
    main := proc0
    type_table := fun _ => some .int
    defuse := fun _ => none
    externs := fun _ => none }

/-- A concrete expression compiler for witnesses: node `n` compiles to the
value `reg n` without emitting anything or touching state. -/
def emitE0 : Nat → EmitM Val := fun n => EmitM.pure (.reg n)

/-- A fresh state in which definition id `3` has the recorded alloca
`reg 9`. -/
def stNV : St := ⟨0, 1, [(3, Val.reg 9)], 0, [], []⟩

/-- A concrete scope compiler for witnesses: emits nothing. -/
def eS0 : Nat → EmitM Func := fun _ => EmitM.pure ⟨"", .voidT, []⟩

/-- A default function value for projections. -/
def dFunc : Func := ⟨"", .voidT, []⟩

/-- An expression compiler that always throws, standing for a body whose
compilation fails partway through. -/
def emitEfail : Nat → EmitM Val := fun _ => throwErr "body failed"

/-- A concrete Prog with one owned persist (id 7) and one free variable
(id 3). -/
def progQ : ProgS := ⟨1, 0, [3], [], [], [7], []⟩

/-- A concrete Prog whose `persist` list is non-empty. -/
def progP : ProgS := ⟨1, 0, [], [], [5], [], []⟩

/-- A concrete Proc whose `persist` list is non-empty. -/
def procPers : ProcS := ⟨some 2, 0, [], [], [], [1], []⟩

/-- The type of the first alloca named `envptr` in a trace — the
environment struct `pack_env` allocates. -/
def envAllocaTy : List Instr → Option LTy
  | [] => none
  | .alloca ty nm :: rest => if nm = "envptr" then some ty else envAllocaTy rest
  | _ :: rest => envAllocaTy rest

/-- The target type of the first bitcast in a trace — in an `emit_fun`
trace, the cast of the `i8*` environment parameter to the struct pointer
the function reads its environment through. -/
def firstBitcastTy : List Instr → Option LTy
  | [] => none
  | .bitcast _ ty :: _ => some ty
  | _ :: rest => firstBitcastTy rest

/-- The names of all allocas in a trace, in emission order. -/
def allocaNames : List Instr → List String
  | [] => []
  | .alloca _ nm :: rest => nm :: allocaNames rest
  | _ :: rest => allocaNames rest

/-- Field count of an optional struct type. -/
def structFieldsLen : Option LTy → Option Nat
  | some (.structT _ fields) => some fields.length
  | _ => none

/-- Field count of an optional pointer-to-struct type. -/
def ptrStructFieldsLen : Option LTy → Option Nat
  | some (.ptr (.structT _ fields)) => some fields.length
  | _ => none

/-!  ## Theorems  -/

theorem EmitM.bind_eq_ok {α β : Type} {m : EmitM α} {f : α → EmitM β} {s s' : St} {b : β}
    (h : (m >>= f) s = .ok s' b) : ∃ s₁ a, m s = .ok s₁ a ∧ f a s₁ = .ok s' b := by
  cases hm : m s with
  | ok s1 a => exact ⟨s1, a, rfl, by simpa [hm] using h⟩
  | err e s1 => rw [EmitM.run_bind, hm] at h; cases h

theorem EmitM.pure_eq_ok {α : Type} {a : α} {s s' : St} {b : α}
    (h : EmitM.pure a s = .ok s' b) : s' = s ∧ b = a := by
  simp [EmitM.pure] at h
  exact ⟨h.1.symm, h.2.symm⟩

theorem liftE_eq_ok {α : Type} {e : Except String α} {s s' : St} {a : α}
    (h : liftE e s = .ok s' a) : e = .ok a ∧ s' = s := by
  cases e with
  | ok x =>
    simp [liftE, EmitM.pure] at h
    exact ⟨by rw [h.2], h.1.symm⟩
  | error msg => simp [liftE, throwErr] at h

theorem lower_ids_length {ir : CompilerIR} :
    ∀ {ids : List Nat} {tys : List LTy}, lower_ids ir ids = .ok tys → tys.length = ids.length := by
  intro ids
  induction ids with
  | nil =>
    intro tys h
    simp [lower_ids] at h
    simp [← h]
  | cons id rest ih =>
    intro tys h
    cases hl : lookup_llvm_type ir id with
    | error e => rw [lower_ids] at h; simp [hl, Bind.bind, Except.bind] at h
    | ok t =>
      cases hr : lower_ids ir rest with
      | error e => rw [lower_ids] at h; simp [hl, hr, Bind.bind, Except.bind] at h
      | ok ts =>
        rw [lower_ids] at h
        simp [hl, hr, Bind.bind, Except.bind] at h
        simp [← h, ih hr]

theorem get_func_type_shape {ir : CompilerIR} {rid : Nat} {args : List Nat}
    {ft : LTy × List LTy} (h : get_func_type ir rid args = .ok ft) :
    ∃ front, ft.2 = front ++ [.ptr .int8] ∧ front.length = args.length := by
  cases hr : lookup_llvm_type ir rid with
  | error e => rw [get_func_type] at h; simp [hr, Bind.bind, Except.bind] at h
  | ok rt =>
    cases ha : lower_ids ir args with
    | error e => rw [get_func_type] at h; simp [hr, ha, Bind.bind, Except.bind] at h
    | ok ats =>
      rw [get_func_type] at h
      simp [hr, ha, Bind.bind, Except.bind] at h
      exact ⟨ats, by simp [← h], lower_ids_length ha⟩

theorem emit_fun_eq_ok {ir : CompilerIR} {eE : Nat → EmitM Val} {name : String}
    {a fr lo : List Nat} {b : Nat} {s s' : St} {f : Func}
    (h : emit_fun ir eE name a fr lo b s = .ok s' f) :
    ∃ ft, get_func_type ir b a = .ok ft ∧ f = ⟨name, ft.1, ft.2⟩ := by
  unfold emit_fun at h
  obtain ⟨s1, ft, h1, h2⟩ := EmitM.bind_eq_ok h
  obtain ⟨hg, -⟩ := liftE_eq_ok h1
  obtain ⟨s2, -, -, h4⟩ := EmitM.bind_eq_ok h2
  obtain ⟨s3, -, -, h6⟩ := EmitM.bind_eq_ok h4
  obtain ⟨-, hf⟩ := EmitM.pure_eq_ok h6
  exact ⟨ft, hg, hf⟩

/-- C2: a Proc with `N` parameters is emitted as an LLVM function of
exactly `N + 1` parameters whose last parameter type is `i8*`, and a Prog
is emitted as a function with exactly one parameter, of type `i8*` — with
no special case for zero parameters or empty environments. -/
theorem emitted_function_arity :
    (∀ (ir : CompilerIR) (eS : Nat → EmitM Func) (eE : Nat → EmitM Val) (proc : ProcS)
        (s s' : St) (f : Func),
      emit_proc ir eS eE proc s = .ok s' f →
      f.params.length = proc.params.length + 1 ∧
        ∃ front, f.params = front ++ [.ptr .int8] ∧ front.length = proc.params.length) ∧
    (∀ (ir : CompilerIR) (eS : Nat → EmitM Func) (eE : Nat → EmitM Val) (prog : ProgS)
        (s s' : St) (f : Func),
      emit_prog ir eS eE prog s = .ok s' f →
      f.params.length = 1 ∧ f.params = [.ptr .int8]) := by
  constructor
  · intro ir eS eE proc s s' f h
    cases hp : proc.persist with
    | cons x xs => rw [emit_proc, hp] at h; simp [throwErr] at h
    | nil =>
      rw [emit_proc, hp] at h
      rw [_emit_scope_func] at h
      obtain ⟨s1, -, -, hfun⟩ := EmitM.bind_eq_ok h
      obtain ⟨ft, hg, hf⟩ := emit_fun_eq_ok hfun
      obtain ⟨front, hsplit, hlen⟩ := get_func_type_shape hg
      subst hf
      refine ⟨?_, front, hsplit, hlen⟩
      simp [hsplit, hlen]
  · intro ir eS eE prog s s' f h
    rw [emit_prog, _emit_scope_func] at h
    obtain ⟨s1, -, -, hfun⟩ := EmitM.bind_eq_ok h
    obtain ⟨ft, hg, hf⟩ := emit_fun_eq_ok hfun
    obtain ⟨front, hsplit, hlen⟩ := get_func_type_shape hg
    subst hf
    have hnil : front = [] := List.length_eq_zero.mp hlen
    subst hnil
    simp [hsplit]

theorem emit_fun_rest_restores {ir : CompilerIR} {eE : Nat → EmitM Val} {func : Func}
    {a fr lo : List Nat} {b : Nat} {s s' : St}
    (h : emit_fun_rest ir eE func a fr lo b s = .ok s' ()) :
    s'.builder = s.builder ∧ s'.named_values = s.named_values := by
  rw [emit_fun_rest] at h
  obtain ⟨s1, nb, h1, hh1⟩ := EmitM.bind_eq_ok h
  obtain ⟨s2, ob, h2, hh2⟩ := EmitM.bind_eq_ok hh1
  obtain ⟨s3, u3, h3, hh3⟩ := EmitM.bind_eq_ok hh2
  obtain ⟨s4, onv, h4, hh4⟩ := EmitM.bind_eq_ok hh3
  obtain ⟨s5, u5, h5, hh5⟩ := EmitM.bind_eq_ok hh4
  obtain ⟨s6, u6, h6, hh6⟩ := EmitM.bind_eq_ok hh5
  obtain ⟨s7, u7, h7, hh7⟩ := EmitM.bind_eq_ok hh6
  simp [createBuilder] at h1
  obtain ⟨h1a, h1b⟩ := h1
  subst h1a
  simp [getBuilder] at h2
  obtain ⟨h2a, h2b⟩ := h2
  subst h2a
  simp [setBuilder] at h3
  subst h3
  simp [getNamedValues] at h4
  obtain ⟨h4a, h4b⟩ := h4
  subst h4a
  simp [setBuilder] at h7
  subst h7
  simp [setNamedValues] at hh7
  subst hh7
  simp [← h2b, ← h4b]

/-- C4 counterexample: when the body emission throws, `emit_fun`'s
restore at its single normal return site is never reached, and the
emitter is left holding the scope-local builder (the fresh builder `1`,
not the entry builder `0`) and the scope-local empty `named_values`
instead of the entry map. -/
theorem emit_fun_no_restore_cex :
    (emit_fun irInt emitEfail "f" [] [] [] 0 stNV).errMsg = some "body failed" ∧
    ((emit_fun irInt emitEfail "f" [] [] [] 0 stNV).stateOf).builder = 1 ∧
    stNV.builder = 0 ∧ (1 : Nat) ≠ 0 ∧
    ((emit_fun irInt emitEfail "f" [] [] [] 0 stNV).stateOf).named_values = [] ∧
    stNV.named_values = [(3, Val.reg 9)] ∧
    ([] : List (Nat × Val)) ≠ [(3, Val.reg 9)] := by
  refine ⟨rfl, rfl, rfl, by decide, rfl, rfl, by simp⟩

/-- C4 (amended): when `emit_fun` returns normally, the emitter's builder
and `named_values` are exactly the objects present on entry; the restore
is performed only at that single normal return site, so a failure during
body emission (see the counterexample) leaves the scope-local objects in
place. -/
theorem emit_fun_restores_on_success :
    ∀ (ir : CompilerIR) (eE : Nat → EmitM Val) (name : String)
      (arg_ids free_ids local_ids : List Nat) (body_id : Nat) (s s' : St) (f : Func),
      emit_fun ir eE name arg_ids free_ids local_ids body_id s = .ok s' f →
      s'.builder = s.builder ∧ s'.named_values = s.named_values := by
  intro ir eE name arg_ids free_ids local_ids body_id s s' f h
  unfold emit_fun at h
  obtain ⟨s1, ft, h1, hh1⟩ := EmitM.bind_eq_ok h
  obtain ⟨hg, hs1⟩ := liftE_eq_ok h1
  obtain ⟨s2, u2, h2, hh2⟩ := EmitM.bind_eq_ok hh1
  obtain ⟨s3, u3, h3, hh3⟩ := EmitM.bind_eq_ok hh2
  obtain ⟨hs3, hf⟩ := EmitM.pure_eq_ok hh3
  obtain ⟨hb, hn⟩ := emit_fun_rest_restores h3
  subst hs3
  subst hs1
  simp [addFunction] at h2
  rw [← h2] at hb hn
  simpa using ⟨hb, hn⟩

/-- Witness for C4 (amended): a concrete successful scope emission ends
with the entry builder and the entry `named_values`. -/
theorem emit_fun_restores_on_success_witness :
    ((emit_fun irInt emitE0 "f" [] [] [] 0 stNV).stateOf).builder = stNV.builder ∧
    ((emit_fun irInt emitE0 "f" [] [] [] 0 stNV).stateOf).named_values = stNV.named_values :=
  emit_fun_restores_on_success irInt emitE0 "f" [] [] [] 0 stNV
    ((emit_fun irInt emitE0 "f" [] [] [] 0 stNV).stateOf)
    ((emit_fun irInt emitE0 "f" [] [] [] 0 stNV).valueOf dFunc) rfl

/-- Witness for C2: the zero-parameter entry Proc still gets one `i8*`. -/
theorem emitted_function_arity_witness :
    ((emit_proc irInt eS0 emitE0 proc0 st0).valueOf dFunc).params.length =
        proc0.params.length + 1 ∧
      ∃ front, ((emit_proc irInt eS0 emitE0 proc0 st0).valueOf dFunc).params =
          front ++ [.ptr .int8] ∧ front.length = proc0.params.length :=
  emitted_function_arity.1 irInt eS0 emitE0 proc0 st0
    ((emit_proc irInt eS0 emitE0 proc0 st0).stateOf)
    ((emit_proc irInt eS0 emitE0 proc0 st0).valueOf dFunc) rfl

/-- C3: Type lowering maps `Int` to i32 and `Float` to double; `Fun(params,
ret)` lowers to the packed two-field struct of a pointer to
`(lower(params…), i8*) → lower(ret)` together with an `i8*`; `Code(inner)`
lowers to the same struct shape with function type `(i8*) → lower(inner)`;
every type outside `{Int, Float, Fun, Code}` (`Any`, `Void`,
`Parameterized`, `Instance`) fails with the unsupported-type error; and the
lowering of `Code(t)` coincides with that of the corresponding `Fun([], t)`. -/
theorem llvm_type_lowering :
    llvm_type .int = .ok .int32 ∧
    llvm_type .float = .ok .double ∧
    (∀ ps r aps rr, llvm_type_list ps = .ok aps → llvm_type r = .ok rr →
      llvm_type (.fn ps r) =
        .ok (.structT true [.ptr (.fnT rr (aps ++ [.ptr .int8])), .ptr .int8])) ∧
    (∀ t rt, llvm_type t = .ok rt →
      llvm_type (.code t) = .ok (.structT true [.ptr (.fnT rt [.ptr .int8]), .ptr .int8])) ∧
    (∀ t, llvm_type (.code t) = llvm_type (.fn [] t)) ∧
    llvm_type .any = .error "Unsupported type in LLVM backend" ∧
    llvm_type .void = .error "Unsupported type in LLVM backend" ∧
    (∀ nm, llvm_type (.param nm) = .error "Unsupported type in LLVM backend") ∧
    (∀ c a, llvm_type (.inst c a) = .error "Unsupported type in LLVM backend") := by
  refine ⟨rfl, rfl, ?_, ?_, ?_, rfl, rfl, fun _ => rfl, fun _ _ => rfl⟩
  · intro ps r aps rr h1 h2
    simp [llvm_type, h1, h2, Bind.bind, Except.bind]
  · intro t rt h
    simp [llvm_type, h, Bind.bind, Except.bind]
  · intro t
    cases h : llvm_type t <;> simp [llvm_type, llvm_type_list, h, Bind.bind, Except.bind]

/-- Witness for C3 at a concrete function type. -/
theorem llvm_type_lowering_witness :
    llvm_type (.fn [.int] .float) =
      .ok (.structT true [.ptr (.fnT .double ([.int32] ++ [.ptr .int8])), .ptr .int8]) :=
  llvm_type_lowering.2.2.1 [.int] .float [.int32] .double rfl rfl

/-- C7: scope resolution dispatches on the first defined entry of
`variant.procs[id]`, `ir.procs[id]`, `variant.progs[id]`, `ir.progs[id]`,
in that order (an absent variant contributes nothing), and throws the
unknown-scope error exactly when all four are absent.  The equation shows
resolution itself is a pure lookup: it changes no state and leaves the IR
untouched, merely applying the emitter's Proc/Prog compilers to the
resolved definition. -/
theorem emit_scope_resolution :
    (∀ (variant : Option VariantS) (ir : CompilerIR) fproc fprog (id : Nat),
      emit_scope variant ir fproc fprog id =
        match resolve_scope_spec variant ir id with
        | some (.inl p) => fproc p
        | some (.inr q) => fprog q
        | none => throwErr ("scope id " ++ toString id ++ " not found")) ∧
    (∀ (variant : Option VariantS) (ir : CompilerIR) (id : Nat),
      resolve_scope_spec variant ir id = none ↔
        (match variant with | some v => v.procs id | none => none) = none ∧
        ir.procs id = none ∧
        (match variant with | some v => v.progs id | none => none) = none ∧
        ir.progs id = none) := by
  constructor
  · intro variant ir fproc fprog id
    cases variant with
    | none =>
      cases hp : ir.procs id <;> cases hq : ir.progs id <;>
        simp [emit_scope, specialized_proc, specialized_prog, resolve_scope_spec, hp, hq]
    | some v =>
      cases hvp : v.procs id <;> cases hp : ir.procs id <;>
        cases hvq : v.progs id <;> cases hq : ir.progs id <;>
        simp [emit_scope, specialized_proc, specialized_prog, resolve_scope_spec,
          hvp, hp, hvq, hq]
  · intro variant ir id
    cases variant with
    | none =>
      cases hp : ir.procs id <;> cases hq : ir.progs id <;>
        simp [resolve_scope_spec, hp, hq]
    | some v =>
      cases hvp : v.procs id <;> cases hp : ir.procs id <;>
        cases hvq : v.progs id <;> cases hq : ir.progs id <;>
        simp [resolve_scope_spec, hvp, hp, hvq, hq]

/-- C8: the runtime-declaration table is exactly the ten-row ABI table of
§6.2, and for each entry the prelude adds both the bare declaration with
its listed signature and a `<name>_wrapper` whose parameter list appends
one trailing `i8*`; the wrapper's body calls the bare function with the
wrapper's leading parameters `0 .. args.length - 1` unchanged (the
trailing environment parameter at index `args.length` is never
forwarded) and terminates with `ret void` exactly when the declared
return type is `void`, otherwise returning the call's value. -/
theorem runtime_prelude_wrappers :
    runtime_declarations =
      [ ("mesh_indices", .int32, [.ptr .int8]),
        ("mesh_positions", .int32, [.ptr .int8]),
        ("mesh_normals", .int32, [.ptr .int8]),
        ("get_shader", .int32, [.ptr .int8, .ptr .int8]),
        ("draw_mesh", .voidT, [.int32, .int32]),
        ("print_mesh", .voidT, [.ptr .int8]),
        ("gl_buffer", .int32, [.int32, .ptr .int8, .ptr .int8]),
        ("detect_error", .voidT, []),
        ("load_obj", .ptr .int8, [.ptr .int8, .ptr .int8]),
        ("create_window", .ptr .int8, []) ] ∧
    (∀ (nm : String) (r : LTy) (args : List LTy) (s : St),
      emit_runtime_decl_one (nm, r, args) s =
        .ok { s with
              funcs := s.funcs ++
                [⟨nm, r, args⟩, ⟨nm ++ "_wrapper", r, args ++ [ptr_t]⟩],
              next_builder := s.next_builder + 1,
              next_reg := s.next_reg + 2,
              instrs := s.instrs ++
                [.call (.funcref nm)
                    ((List.range args.length).map (Val.paramV (nm ++ "_wrapper"))),
                  if r.isVoidT then .retVoid else .ret (.reg s.next_reg)] } ()) := by
  constructor
  · rfl
  · intro nm r args s
    cases hv : r.isVoidT <;>
      simp [emit_runtime_decl_one, addFunction, createBuilder, buildCall, buildRet,
        emitInstr, pushInstr, hv, EmitM.pure]

/-- C9 counterexample: a unary `+` on an `Int` operand throws
"Unknown unary op", not the "Incompatible Operand" error the claim
asserts for every case other than numeric negation. -/
theorem visit_unary_wrong_op_cex :
    (visit_unary irInt emitE0 0 "+" st0).errMsg = some "Unknown unary op" ∧
    some "Unknown unary op" ≠ some "Incompatible Operand" := by
  exact ⟨rfl, by decide⟩

/-- C9 (amended): on an `Int` operand `-` emits integer negation and on a
`Float` operand `-` emits floating-point negation; any other operator on
an `Int` or `Float` operand fails with "Unknown unary op"; an operand of
any non-numeric type fails with "Incompatible Operand" whatever the
operator is.  The operand is emitted first, and the failures leave the
state exactly as that emission left it. -/
theorem visit_unary_cases :
    ∀ (ir : CompilerIR) (emitE : Nat → EmitM Val) (expr_id : Nat) (op : String)
      (s s1 : St) (v : Val),
      emitE expr_id s = .ok s1 v →
      ((ir.type_table expr_id = some .int → op = "-" →
          visit_unary ir emitE expr_id op s = .ok (pushInstr s1 (.neg v)) (.reg s1.next_reg)) ∧
        (ir.type_table expr_id = some .float → op = "-" →
          visit_unary ir emitE expr_id op s = .ok (pushInstr s1 (.fneg v)) (.reg s1.next_reg)) ∧
        (∀ t, ir.type_table expr_id = some t → (t.isInt || t.isFloat) = true → op ≠ "-" →
          visit_unary ir emitE expr_id op s = .err "Unknown unary op" s1) ∧
        (∀ t, ir.type_table expr_id = some t → t.isInt = false → t.isFloat = false →
          visit_unary ir emitE expr_id op s = .err "Incompatible Operand" s1)) := by
  intro ir emitE expr_id op s s1 v hemit
  refine ⟨?_, ?_, ?_, ?_⟩
  · intro ht hop
    simp [visit_unary, hemit, ht, hop, lookup_ty, liftE, EmitM.pure, emitInstr, Ty.isInt]
  · intro ht hop
    simp [visit_unary, hemit, ht, hop, lookup_ty, liftE, EmitM.pure, emitInstr,
      Ty.isInt, Ty.isFloat]
  · intro t ht hnum hop
    rcases Bool.or_eq_true_iff.mp hnum with hi | hf
    · simp [visit_unary, hemit, ht, hop, hi, lookup_ty, liftE, EmitM.pure, throwErr]
    · cases hi : t.isInt <;>
        simp [visit_unary, hemit, ht, hop, hi, hf, lookup_ty, liftE, EmitM.pure, throwErr]
  · intro t ht hi hf
    simp [visit_unary, hemit, ht, hi, hf, lookup_ty, liftE, EmitM.pure, throwErr]

/-- Witness for C9 (amended): integer negation at a concrete input. -/
theorem visit_unary_cases_witness :
    visit_unary irInt emitE0 3 "-" st0 = .ok (pushInstr st0 (.neg (.reg 3))) (.reg st0.next_reg) :=
  (visit_unary_cases irInt emitE0 3 "-" st0 st0 (.reg 3) rfl).1 rfl rfl

/-- C6: with both operands emitted first (left then right), two `Int`
operands give a bare integer `add`/`mul` with no cast; a `Float` beside an
`Int` or `Float` promotes exactly the `Int` side(s) with one
signed-int-to-float cast each and gives `fadd`/`fmul`; an operand that is
neither `Int` nor `Float` fails with "Incompatible Operands"; an operator
other than `+` and `*` on numeric operands fails with "Unknown bin op". -/
theorem visit_binary_cases :
    ∀ (ir : CompilerIR) (emitE : Nat → EmitM Val) (lhs_id rhs_id : Nat) (op : String)
      (s s1 s2 : St) (lv rv : Val),
      emitE lhs_id s = .ok s1 lv → emitE rhs_id s1 = .ok s2 rv →
      ((ir.type_table lhs_id = some .int → ir.type_table rhs_id = some .int → op = "+" →
          visit_binary ir emitE lhs_id rhs_id op s =
            .ok (pushInstr s2 (.add lv rv)) (.reg s2.next_reg)) ∧
        (ir.type_table lhs_id = some .int → ir.type_table rhs_id = some .int → op = "*" →
          visit_binary ir emitE lhs_id rhs_id op s =
            .ok (pushInstr s2 (.mul lv rv)) (.reg s2.next_reg)) ∧
        (ir.type_table lhs_id = some .int → ir.type_table rhs_id = some .float → op = "+" →
          visit_binary ir emitE lhs_id rhs_id op s =
            .ok (pushInstr (pushInstr s2 (.sitofp lv .double)) (.fadd (.reg s2.next_reg) rv))
              (.reg (s2.next_reg + 1))) ∧
        (ir.type_table lhs_id = some .int → ir.type_table rhs_id = some .float → op = "*" →
          visit_binary ir emitE lhs_id rhs_id op s =
            .ok (pushInstr (pushInstr s2 (.sitofp lv .double)) (.fmul (.reg s2.next_reg) rv))
              (.reg (s2.next_reg + 1))) ∧
        (ir.type_table lhs_id = some .float → ir.type_table rhs_id = some .int → op = "+" →
          visit_binary ir emitE lhs_id rhs_id op s =
            .ok (pushInstr (pushInstr s2 (.sitofp rv .double)) (.fadd lv (.reg s2.next_reg)))
              (.reg (s2.next_reg + 1))) ∧
        (ir.type_table lhs_id = some .float → ir.type_table rhs_id = some .int → op = "*" →
          visit_binary ir emitE lhs_id rhs_id op s =
            .ok (pushInstr (pushInstr s2 (.sitofp rv .double)) (.fmul lv (.reg s2.next_reg)))
              (.reg (s2.next_reg + 1))) ∧
        (ir.type_table lhs_id = some .float → ir.type_table rhs_id = some .float → op = "+" →
          visit_binary ir emitE lhs_id rhs_id op s =
            .ok (pushInstr s2 (.fadd lv rv)) (.reg s2.next_reg)) ∧
        (ir.type_table lhs_id = some .float → ir.type_table rhs_id = some .float → op = "*" →
          visit_binary ir emitE lhs_id rhs_id op s =
            .ok (pushInstr s2 (.fmul lv rv)) (.reg s2.next_reg)) ∧
        (∀ tl tr, ir.type_table lhs_id = some tl → ir.type_table rhs_id = some tr →
          (tl.isInt = false ∧ tl.isFloat = false) ∨ (tr.isInt = false ∧ tr.isFloat = false) →
          (visit_binary ir emitE lhs_id rhs_id op s).errMsg = some "Incompatible Operands") ∧
        (∀ tl tr, ir.type_table lhs_id = some tl → ir.type_table rhs_id = some tr →
          (tl.isInt || tl.isFloat) = true → (tr.isInt || tr.isFloat) = true →
          op ≠ "+" → op ≠ "*" →
          (visit_binary ir emitE lhs_id rhs_id op s).errMsg = some "Unknown bin op")) := by
  intro ir emitE lhs_id rhs_id op s s1 s2 lv rv h1 h2
  refine ⟨?_, ?_, ?_, ?_, ?_, ?_, ?_, ?_, ?_, ?_⟩
  · intro hl hr hop
    simp [visit_binary, h1, h2, hl, hr, hop, lookup_ty, liftE, EmitM.pure, emitInstr,
      Ty.isInt, Ty.isFloat]
  · intro hl hr hop
    simp [visit_binary, h1, h2, hl, hr, hop, lookup_ty, liftE, EmitM.pure, emitInstr,
      Ty.isInt, Ty.isFloat]
  · intro hl hr hop
    simp [visit_binary, h1, h2, hl, hr, hop, lookup_ty, liftE, EmitM.pure, emitInstr,
      pushInstr, Ty.isInt, Ty.isFloat]
  · intro hl hr hop
    simp [visit_binary, h1, h2, hl, hr, hop, lookup_ty, liftE, EmitM.pure, emitInstr,
      pushInstr, Ty.isInt, Ty.isFloat]
  · intro hl hr hop
    simp [visit_binary, h1, h2, hl, hr, hop, lookup_ty, liftE, EmitM.pure, emitInstr,
      pushInstr, Ty.isInt, Ty.isFloat]
  · intro hl hr hop
    simp [visit_binary, h1, h2, hl, hr, hop, lookup_ty, liftE, EmitM.pure, emitInstr,
      pushInstr, Ty.isInt, Ty.isFloat]
  · intro hl hr hop
    simp [visit_binary, h1, h2, hl, hr, hop, lookup_ty, liftE, EmitM.pure, emitInstr,
      Ty.isInt, Ty.isFloat]
  · intro hl hr hop
    simp [visit_binary, h1, h2, hl, hr, hop, lookup_ty, liftE, EmitM.pure, emitInstr,
      Ty.isInt, Ty.isFloat]
  · intro tl tr hl hr hbad
    rcases hbad with ⟨hi, hf⟩ | ⟨hi, hf⟩ <;>
      simp [visit_binary, h1, h2, hl, hr, hi, hf, lookup_ty, liftE, EmitM.pure,
        throwErr, ERes.errMsg]
  · intro tl tr hl hr hnl hnr hop1 hop2
    cases tl <;> cases tr <;> simp_all [Ty.isInt, Ty.isFloat] <;>
      simp [visit_binary, h1, h2, hl, hr, hop1, hop2, lookup_ty, liftE, EmitM.pure,
        throwErr, emitInstr, ERes.errMsg, Ty.isInt, Ty.isFloat]

/-- Witness for C6: `1 + 2` on `Int` operands stays one integer add. -/
theorem visit_binary_cases_witness :
    visit_binary irInt emitE0 0 1 "+" st0 =
      .ok (pushInstr st0 (.add (.reg 0) (.reg 1))) (.reg st0.next_reg) :=
  (visit_binary_cases irInt emitE0 0 1 "+" st0 st0 st0 (.reg 0) (.reg 1) rfl rfl).1 rfl rfl rfl

/-- C10: after the right-hand side is emitted, a Let — and an Assign whose
resolved definition id is not an extern — throws the unknown-variable
error when `named_values` has no alloca for the target id, leaving the
state exactly as the right-hand-side emission left it; when the alloca is
present, the right-hand side's value is stored through it and is the
value of the whole expression. -/
theorem assignment_cases :
    ∀ (ir : CompilerIR) (emitE : Nat → EmitM Val) (expr_id tid : Nat)
      (s s1 : St) (v : Val),
      emitE expr_id s = .ok s1 v →
      ((lookupNV s1.named_values tid = none →
          emit_let emitE expr_id tid s = .err "Unknown variable name (assign helper)" s1) ∧
        (∀ p, lookupNV s1.named_values tid = some p →
          emit_let emitE expr_id tid s = .ok (pushInstr s1 (.store v p)) v) ∧
        (∀ defid, ir.defuse tid = some defid → ir.externs defid = none →
          lookupNV s1.named_values defid = none →
          emit_assign ir emitE tid expr_id s = .err "Unknown variable name (assign helper)" s1) ∧
        (∀ defid p, ir.defuse tid = some defid → ir.externs defid = none →
          lookupNV s1.named_values defid = some p →
          emit_assign ir emitE tid expr_id s = .ok (pushInstr s1 (.store v p)) v)) := by
  intro ir emitE expr_id tid s s1 v hemit
  refine ⟨?_, ?_, ?_, ?_⟩
  · intro hnv
    simp [emit_let, assignment_helper, getNamedValues, hemit, hnv, throwErr]
  · intro p hnv
    simp [emit_let, assignment_helper, getNamedValues, hemit, hnv, buildStore,
      emitInstr, EmitM.pure]
  · intro defid hdef hext hnv
    simp [emit_assign, hdef, hext, emit_let, assignment_helper, getNamedValues,
      hemit, hnv, throwErr]
  · intro defid p hdef hext hnv
    simp [emit_assign, hdef, hext, assignment_helper, getNamedValues, hemit, hnv,
      buildStore, emitInstr, EmitM.pure]

/-- Witness for C10: a Let whose target has alloca `reg 9` stores the
right-hand side's value and returns it. -/
theorem assignment_cases_witness :
    emit_let emitE0 5 3 stNV = .ok (pushInstr stNV (.store (.reg 5) (.reg 9))) (.reg 5) :=
  (assignment_cases irInt emitE0 5 3 stNV stNV (.reg 5) rfl).2.1 (.reg 9) rfl

/-- C5 counterexample: a Prog whose `persist` list is the non-empty `[5]`
is emitted without aborting — `emit_prog` completes and produces the
function `prog1` — refuting the claim that every scope with a non-empty
persist list fails rather than producing a function. -/
theorem emit_prog_nonempty_persist_cex :
    progP.persist = [5] ∧
    (emit_prog irInt eS0 emitE0 progP st0).isOk = true ∧
    ((emit_prog irInt eS0 emitE0 progP st0).valueOf dFunc).name = progsym 1 := by
  exact ⟨rfl, rfl, rfl⟩

/-- C5 (amended): emitting a Proc with a non-empty `persist` list aborts
with "Persist not implemented yet" before any mutation; `emit_prog`, by
contrast, never reads the `persist` list (its entries are only logged),
so its emission is identical to that of the same Prog with an empty
persist list. -/
theorem persist_handling :
    (∀ (ir : CompilerIR) (eS : Nat → EmitM Func) (eE : Nat → EmitM Val) (proc : ProcS)
        (s : St), proc.persist ≠ [] →
      emit_proc ir eS eE proc s = .err "Persist not implemented yet" s) ∧
    (∀ (ir : CompilerIR) (eS : Nat → EmitM Func) (eE : Nat → EmitM Val) (prog : ProgS)
        (s : St),
      emit_prog ir eS eE prog s = emit_prog ir eS eE { prog with persist := [] } s) := by
  constructor
  · intro ir eS eE proc s hp
    cases hpp : proc.persist with
    | nil => exact absurd hpp hp
    | cons x xs => rw [emit_proc, hpp]; rfl
  · intro ir eS eE prog s
    rfl

/-- Witness for C5 (amended): the Proc-side abort at a concrete Proc with
`persist = [1]`. -/
theorem persist_handling_witness :
    emit_proc irInt eS0 emitE0 procPers st0 = .err "Persist not implemented yet" st0 :=
  persist_handling.1 irInt eS0 emitE0 procPers st0 (by simp [procPers])

/-- C1: for the Prog `progQ` with `owned_persist = [7]` and `free = [3]`
(both of type `Int`), the environment struct `pack_env` builds when a
closure over the Prog is packed has exactly one field — the lowering of
the `free` list alone — while the Prog's emitted function bitcasts its
environment parameter to a pointer to a two-field struct and reads fields
`0` and `1` back into allocas for ids `7` then `3` (`owned_persist ++
free`).  The packed layout and the read-back layout therefore disagree
whenever `owned_persist` is non-empty: the claim's layout holds on the
read-back side only. -/
theorem pack_unpack_env_layout_mismatch :
    progQ.owned_persist = [7] ∧ progQ.free = [3] ∧
    envAllocaTy ((pack_env irInt progQ.free stNV).stateOf).instrs =
      some (.structT true [.int32]) ∧
    structFieldsLen (envAllocaTy ((pack_env irInt progQ.free stNV).stateOf).instrs) =
      some 1 ∧
    firstBitcastTy ((emit_prog irInt eS0 emitE0 progQ st0).stateOf).instrs =
      some (.ptr (.structT true [.int32, .int32])) ∧
    ptrStructFieldsLen
        (firstBitcastTy ((emit_prog irInt eS0 emitE0 progQ st0).stateOf).instrs) =
      some 2 ∧
    allocaNames ((emit_prog irInt eS0 emitE0 progQ st0).stateOf).instrs =
      [varsym 7, varsym 3] ∧
    (1 : Nat) ≠ 2 := by
  refine ⟨rfl, rfl, rfl, rfl, rfl, rfl, rfl, by decide⟩

end Braid
